import Mathlib

/-!
Shallow embedding of src/main.py (a streamlit dashboard over a pandas
DataFrame of delivery records) and proofs about its data pipeline.

Modelling conventions, stated once:
* A pandas cell is a `RawValue`.  A record decoded from the API payload is
  a `RawRecord` whose fields are `Option RawValue` (`none` = key absent
  from the record).  A DataFrame column exists iff some record carries the
  key; a record missing the key of an existing column holds a NaN cell.
* Instants are minutes since the Unix epoch (the code only ever compares
  instants, takes calendar days, and divides differences by 3600 seconds,
  so minute resolution is exact for everything proved here).  Calendar
  dates are days since the Unix epoch.
* `pd.to_datetime(x, utc=True, errors="coerce")` is a library call; a raw
  string that it parses is represented by the already-parsed instant
  `RawValue.vTime t`, an unparseable value coerces to NaT (`none`), and a
  Python `date` object (the output type of the pipeline, needed for the
  re-normalization claim) parses as midnight UTC of that day.
* `America/Monterrey` has a fixed UTC-6 offset for every instant involved
  here (Mexico abolished DST in 2022; the spec itself pins the target
  zone to UTC-6), so tz conversion is modelled as adding -360 minutes.
-/

namespace ResumenPaqueterias

/-- Cell values occurring in the DataFrame: JSON scalars (null, bool,
number, string), the pandas NaN/NaT of a missing or unparseable cell,
Python date objects (days since epoch) and parsed UTC timestamps
(minutes since epoch). -/
inductive RawValue where
  | vNull
  | vNaN
  | vBool (b : Bool)
  | vNum (q : Rat)
  | vStr (s : String)
  | vDate (d : Int)
  | vTime (t : Int)
deriving DecidableEq

/-- Model of pd.isna on one cell: true exactly for None and NaN (and NaT,
which vNaN also stands for). -/
def isna : RawValue → Bool
  | .vNull => true
  | .vNaN => true
  | _ => false

/-- Numeric value of a digit string. -/
def digitsToNat (cs : List Char) : Nat :=
  cs.foldl (fun a c => a * 10 + (c.toNat - 48)) 0

/-- Strip of leading and trailing whitespace from a character list. -/
def stripWs (cs : List Char) : List Char :=
  ((cs.dropWhile (fun c => c.isWhitespace)).reverse.dropWhile
    (fun c => c.isWhitespace)).reverse

/-- Model of the Python built-in float() on strings, restricted to plain
decimal literals: optional surrounding whitespace, optional sign, digits
with an optional fractional part, at least one digit overall.  Exotic
forms Python also accepts (exponents, inf, nan, underscores) are treated
as parse failures; no claim exercises them. -/
def parsePyFloat (s : String) : Option Rat :=
  let cs := stripWs s.data
  let sgnBody : Int × List Char :=
    match cs with
    | '-' :: rest => (-1, rest)
    | '+' :: rest => (1, rest)
    | _ => (1, cs)
  let sgn := sgnBody.1
  let body := sgnBody.2
  let intPart := body.takeWhile (fun c => c.isDigit)
  let rest := body.dropWhile (fun c => c.isDigit)
  match rest with
  | [] =>
    if intPart.isEmpty then none
    else some (mkRat (sgn * (digitsToNat intPart : Int)) 1)
  | '.' :: frac =>
    if frac.all (fun c => c.isDigit) && !(intPart.isEmpty && frac.isEmpty) then
      some (mkRat (sgn * ((digitsToNat intPart : Int) * ((10 : Int) ^ frac.length)
        + (digitsToNat frac : Int))) (10 ^ frac.length))
    else none
  | _ => none

/-- Model of Python float(x) on non-NaN values: numbers coerce to
themselves, booleans to 0/1, strings through parsePyFloat, and everything
else (None, date objects, timestamps) raises, modelled as none.
float(nan) succeeds with NaN, which Rat cannot carry; that case is
unreachable from to_bool because pd.isna filters it first. -/
def pyFloat : RawValue → Option Rat
  | .vNum q => some q
  | .vStr s => parsePyFloat s
  | .vBool b => some (if b then 1 else 0)
  | _ => none

/-- Lines 86-94 of main.py: the incidence coercion.
NaN/None give False, booleans pass through, then float(x) != 0 with any
coercion failure giving False. -/
def to_bool (x : RawValue) : Bool :=
  if isna x then false
  else
    match x with
    | .vBool b => b
    | _ =>
      match pyFloat x with
      | some q => q != 0
      | none => false

/-- Days since 1970-01-01 of the Gregorian date y-m-d (the standard
civil-from-days construction), used to write concrete dates readably. -/
def daysOfCivil (y : Int) (m d : Nat) : Int :=
  let yy : Int := if m ≤ 2 then y - 1 else y
  let era : Int := yy.fdiv 400
  let yoe : Int := yy - era * 400
  let mp : Int := ((m : Int) + 9) % 12
  let doy : Int := (153 * mp + 2).fdiv 5 + (d : Int) - 1
  let doe : Int := yoe * 365 + yoe.fdiv 4 - yoe.fdiv 100 + doy
  era * 146097 + doe - 719468

/-- A UTC instant in minutes since the epoch, written as a calendar date
plus time of day. -/
def utcMinutes (y : Int) (m d h mi : Nat) : Int :=
  daysOfCivil y m d * 1440 + (h : Int) * 60 + (mi : Int)

/-- Fixed UTC offset of LOCAL_TZ = America/Monterrey, in minutes. -/
def tzOffsetMinutes : Int := -360

/-- Series.dt.tz_convert(LOCAL_TZ): the local-clock instant of a UTC
instant. -/
def toLocalInstant (t : Int) : Int := t + tzOffsetMinutes

/-- Series.dt.date on a local instant: drop the time-of-day component
(floor to whole local days). -/
def dropTime (localInstant : Int) : Int := localInstant.fdiv 1440

/-- The local calendar date of a UTC instant: convert to the target zone
first, then drop the time of day. -/
def localDateOf (t : Int) : Int := dropTime (toLocalInstant t)

/-- Model of pd.to_datetime(x, utc=True, errors="coerce") on one cell, as
a UTC instant: an already-parsed timestamp stands for any raw value
pandas parses, a Python date object parses as midnight UTC of that day,
and everything else coerces to NaT. -/
def parseUTC : RawValue → Option Int
  | .vTime t => some t
  | .vDate d => some (d * 1440)
  | _ => none

/-- One decoded record of the API payload.  Only the fields the pipeline
reads are modelled; none = key absent from the record.  The remaining
payload columns (client, service, ...) are carried through main.py
untouched and play no role in any claim. -/
structure RawRecord where
  carrier : Option RawValue := none
  incidence : Option RawValue := none
  start_date : Option RawValue := none
  delivery_date : Option RawValue := none
deriving DecidableEq

/-- One row of the processed DataFrame df_all.  start_date and
delivery_date are the normalized local calendar dates (none = NaT);
start_local / delivery_local are the internal _start_local /
_delivery_local instants; horas_entrega is _horas_entrega (none = NaN).
The incidence field is only meaningful when the incidence column exists
(NormDF.hasIncidence); every consumer of that column in main.py guards on
column presence, and so do the models below. -/
structure NormRow where
  carrier : RawValue
  incidence : Bool
  start_date : Option Int
  delivery_date : Option Int
  start_local : Option Int
  delivery_local : Option Int
  horas_entrega : Option Rat
deriving DecidableEq

/-- The processed DataFrame df_all together with which of the guarded
columns exist. -/
structure NormDF where
  hasIncidence : Bool
  hasCarrier : Bool
  rows : List NormRow
deriving DecidableEq

/-- Outcome of constructing df_all.  Lines 128-131 of main.py subtract
the internal _delivery_local and _start_local columns.  When exactly one
of the two raw date columns exists, one operand is the tz-aware column
produced by to_datetime(utc=True).tz_convert while the other is the
tz-naive all-NaT column created by the else-branch (scalar pd.NaT,
dtype datetime64 without a zone), and pandas raises TypeError on
subtracting tz-naive and tz-aware datetimes: the build crashes and no
table is produced.  With both columns present (aware minus aware) or
both absent (naive minus naive) the subtraction succeeds. -/
inductive BuildResult where
  | typeErrorTz
  | built (df : NormDF)
deriving DecidableEq

/-- Projection of a build outcome onto the table it produced.  The error
case is mapped to the empty table; every theorem below uses this
projection only in conjunction with an assertion that the build did not
raise. -/
def builtDF : BuildResult → NormDF
  | .built df => df
  | .typeErrorTz => { hasIncidence := false, hasCarrier := false, rows := [] }

/-- Lines 82-131 of main.py: build df_all from the session dataset.
A column exists iff some record carries the key (pandas DataFrame-of-dicts
semantics); a record missing the key of an existing column holds a NaN
cell, and to_datetime coerces it to NaT.  When a raw date column is
absent the code still creates the normalized columns, filled with NaT
(lines 112-114 and 124-126); when exactly one raw date column is absent,
the subtraction of line 129 mixes a tz-aware and a tz-naive column and
raises TypeError (see BuildResult).  _horas_entrega is the instant
difference in hours, NaN (none) when either instant is NaT. -/
def build_df_all (raw : List RawRecord) : BuildResult :=
  let hasInc := raw.any (fun r => r.incidence.isSome)
  let hasStart := raw.any (fun r => r.start_date.isSome)
  let hasDeliv := raw.any (fun r => r.delivery_date.isSome)
  if hasStart != hasDeliv then .typeErrorTz
  else .built
  { hasIncidence := hasInc
    hasCarrier := raw.any (fun r => r.carrier.isSome)
    rows := raw.map (fun r =>
      let sLoc := if hasStart
        then (parseUTC (r.start_date.getD .vNaN)).map toLocalInstant
        else none
      let dLoc := if hasDeliv
        then (parseUTC (r.delivery_date.getD .vNaN)).map toLocalInstant
        else none
      { carrier := r.carrier.getD .vNaN
        incidence := if hasInc then to_bool (r.incidence.getD .vNaN) else false
        start_date := sLoc.map dropTime
        delivery_date := dLoc.map dropTime
        start_local := sLoc
        delivery_local := dLoc
        horas_entrega :=
          match dLoc, sLoc with
          | some td, some ts => some (((td - ts : Int) : Rat) / 60)
          | _, _ => none }) }

/-- Line 192 of main.py: the exact-date mask.  A NaT cell compares False
against a date in pandas, so null-dated rows never match. -/
def mask_fecha (selected : Int) (r : NormRow) : Bool :=
  r.delivery_date == some selected

/-- Lines 192-193: the subset for the selected delivery date. -/
def df_fecha (df : NormDF) (selected : Int) : List NormRow :=
  df.rows.filter (mask_fecha selected)

/-- Lines 281-286: the closed-range mask over the last n_dias days,
fecha_min = selected_date - timedelta(days=n_dias - 1).  Comparisons with
a NaT cell are False in pandas, so null-dated rows never match. -/
def mask_rango (selected : Int) (nDias : Int) (r : NormRow) : Bool :=
  match r.delivery_date with
  | none => false
  | some d => decide (selected - (nDias - 1) ≤ d) && decide (d ≤ selected)

/-- Line 287: the subset for the last n_dias days. -/
def df_rango (df : NormDF) (selected : Int) (nDias : Int) : List NormRow :=
  df.rows.filter (mask_rango selected nDias)

/-- Round the fraction n / d (with d positive) to the nearest integer,
ties to even, mirroring how Python rounds when formatting floats to a
fixed number of decimals.  Stated on a numerator and denominator so that
it evaluates by kernel reduction. -/
def roundHalfEvenND (n : Int) (d : Nat) : Int :=
  let f := n.fdiv d
  let r := n - f * (d : Int)
  if 2 * r < (d : Int) then f
  else if (d : Int) < 2 * r then f + 1
  else if f % 2 = 0 then f else f + 1

/-- Model of Python .2f formatting on an exact rational: round to
centiles (half to even) and print with exactly two decimals. -/
def formatFixed2 (q : Rat) : String :=
  let neg := q.num < 0
  let cents : Nat := (roundHalfEvenND (q.num.natAbs * 100) q.den).toNat
  let ip := cents / 100
  let fp := cents % 100
  (if neg then "-" else "") ++ toString ip ++ "."
    ++ (if fp < 10 then "0" else "") ++ toString fp

/-- Arithmetic mean of a list of rationals (pandas Series.mean over the
non-NaN values). -/
def listMean (xs : List Rat) : Rat := xs.sum / (xs.length : Rat)

/-- The four figures of one summary block. -/
structure Resumen where
  total_entregado : Nat
  tiempo_promedio_str : String
  total_incidencias : Nat
  porcentaje_incidencias : Rat
  porcentaje_incidencias_str : String
deriving DecidableEq

/-- Lines 258-278 of main.py (and, identically, lines 289-309 for the
range subset): the per-subset summary.  The average is taken over the
non-NaN _horas_entrega values and replaced by the sentinel "N/D" when
there are none; the incidence total reads the incidence column only when
it exists (lines 268-271); the percentage is 0.0 for an empty subset
(lines 273-276). -/
def resumen (hasIncidence : Bool) (sub : List NormRow) : Resumen :=
  let total := sub.length
  let horasValidas := sub.filterMap (fun r => r.horas_entrega)
  let tiempoStr :=
    if horasValidas.length > 0 then
      let ph := listMean horasValidas
      formatFixed2 ph ++ " h (~" ++ formatFixed2 (ph / 24) ++ " días)"
    else "N/D"
  let incid := if hasIncidence then sub.countP (fun r => r.incidence) else 0
  let pct : Rat := if total > 0 then ((incid : Rat) / (total : Rat)) * 100 else 0
  { total_entregado := total
    tiempo_promedio_str := tiempoStr
    total_incidencias := incid
    porcentaje_incidencias := pct
    porcentaje_incidencias_str := formatFixed2 pct ++ "%" }

/-- Model of Python str() on the values a carrier cell can hold;
astype(str) maps a NaN cell to the literal string "nan". -/
def pyStr : RawValue → String
  | .vNull => "None"
  | .vNaN => "nan"
  | .vBool b => if b then "True" else "False"
  | .vNum q => toString q
  | .vStr s => s
  | .vDate d => toString d
  | .vTime t => toString t

/-- Model of str.upper(): upper-case every character.  Stated over the
character list so that it evaluates by kernel reduction. -/
def pyUpper (s : String) : String := String.mk (s.data.map Char.toUpper)

/-- Lines 365 and 398: the grouping key, str(carrier).upper(). -/
def carrier_upper (c : RawValue) : String := pyUpper (pyStr c)

/-- Lexicographic strict order on character lists by code point, the
order Python and pandas use on strings. -/
def charListLt : List Char → List Char → Bool
  | [], [] => false
  | [], _ :: _ => true
  | _ :: _, [] => false
  | c :: cs, d :: ds =>
    if c.toNat < d.toNat then true
    else if d.toNat < c.toNat then false
    else charListLt cs ds

/-- Reflexive closure of charListLt on strings. -/
def pyStrLe (a b : String) : Bool := !(charListLt b.data a.data)

/-- One row of the per-carrier aggregate table. -/
structure AggRow where
  paqueteria : String
  cantidad_entregas : Nat
  tiempo_promedio_horas : Option Rat
  incidencias : Nat
  tiempo_promedio_dias : Option Rat
  porcentaje_incidencias : Rat
deriving DecidableEq

/-- Outcome of one per-carrier aggregation block: the empty-or-no-carrier
guard shows an info message instead of a table (noData); otherwise the
named aggregation references the incidence column unconditionally and
pandas raises KeyError when that column does not exist
(keyErrorIncidence); otherwise the aggregate rows. -/
inductive GroupResult where
  | noData
  | keyErrorIncidence
  | groups (gs : List AggRow)
deriving DecidableEq

/-- Series.round(2) on an exact rational. -/
def round2 (q : Rat) : Rat := ((roundHalfEvenND (q.num * 100) q.den : Int) : Rat) / 100

/-- groupby(sort defaults to True) keys: the distinct upper-cased carrier
strings in ascending code-point order. -/
def groupKeys (sub : List NormRow) : List String :=
  ((sub.map (fun r => carrier_upper r.carrier)).insertionSort
    (fun a b => pyStrLe a b = true)).dedup

/-- Lines 361-384 of main.py (and, identically, lines 394-417 for the
range subset): the per-carrier aggregation.  The outer guard mirrors
`if not df.empty and "carrier" in df.columns`.  Group means skip NaN
hours and are NaN (none) for a group with no valid hours; the days column
is computed from the unrounded hours and both are rounded to 2 decimals
afterwards, as is the incidence percentage. -/
def group_por_carrier (df : NormDF) (sub : List NormRow) : GroupResult :=
  if sub.isEmpty || !df.hasCarrier then .noData
  else if !df.hasIncidence then .keyErrorIncidence
  else .groups ((groupKeys sub).map (fun k =>
    let g := sub.filter (fun r => carrier_upper r.carrier == k)
    let horas := g.filterMap (fun r => r.horas_entrega)
    let inc := g.countP (fun r => r.incidence)
    { paqueteria := k
      cantidad_entregas := g.length
      tiempo_promedio_horas :=
        if horas.length > 0 then some (round2 (listMean horas)) else none
      incidencias := inc
      tiempo_promedio_dias :=
        if horas.length > 0 then some (round2 (listMean horas / 24)) else none
      porcentaje_incidencias := round2 (((inc : Rat) / (g.length : Rat)) * 100) }))

/-- Lines 361-384: the per-carrier table for the selected date. -/
def group_fecha (df : NormDF) (selected : Int) : GroupResult :=
  group_por_carrier df (df_fecha df selected)

/-- Lines 394-417: the per-carrier table for the last n_dias days. -/
def group_rango (df : NormDF) (selected : Int) (nDias : Int) : GroupResult :=
  group_por_carrier df (df_rango df selected nDias)

/-- Projection of a grouping outcome onto its discrete content, per
group: key, group size, and incidence count. -/
def groupResumen : GroupResult → List (String × Nat × Nat)
  | .groups gs => gs.map (fun g => (g.paqueteria, g.cantidad_entregas, g.incidencias))
  | _ => []

/-- Comparison realizing delivery-date-descending order on dated rows. -/
def exportRel (a b : NormRow) : Prop :=
  b.delivery_date.getD 0 ≤ a.delivery_date.getD 0

instance : DecidableRel exportRel :=
  fun a b =>
    inferInstanceAs (Decidable (b.delivery_date.getD 0 ≤ a.delivery_date.getD 0))

/-- Lines 142-150 of main.py: the row order of the CSV export.  pandas
sort_values with ascending=False and the default na_position of "last"
orders the rows with a parseable delivery date by that date descending
and appends the NaT rows in their original order (nargsort computes the
order of the non-NaN values and concatenates the NaN positions, in
ascending position order, at the end).  The relative order of dated rows
with equal dates is left unspecified by pandas (unstable quicksort);
insertionSort is one deterministic refinement of it, and no theorem below
depends on the tie order. -/
def df_export_rows (rows : List NormRow) : List NormRow :=
  ((rows.filter (fun r => r.delivery_date.isSome)).insertionSort exportRel)
    ++ rows.filter (fun r => r.delivery_date.isNone)

/-- Specification order for the export, used only in theorem statements:
a dated row precedes another dated row only with a later-or-equal date,
any row may precede a null-dated row, and a null-dated row never precedes
a dated one. -/
def exportOrder (a b : NormRow) : Prop :=
  match a.delivery_date, b.delivery_date with
  | some x, some y => y ≤ x
  | _, none => True
  | none, some _ => False

/-- A decoded response body (response.json() succeeded): a JSON array of
records, a JSON object whose optional data key holds an array of records,
or any other JSON value.  A data key holding a non-array value is outside
this model; no claim exercises it. -/
inductive ApiBody where
  | jlist (rows : List RawRecord)
  | jdict (dataField : Option (List RawRecord))
  | jother
deriving DecidableEq

/-- What one click of the load button leaves behind: the session dataset,
whether st.error ran, and the record count of the st.success message when
it ran. -/
structure LoadOutcome where
  raw_dataset : Option (List RawRecord)
  errorShown : Bool
  successShown : Option Nat
deriving DecidableEq

/-- Lines 47-74 of main.py: the load-button handler.  On a
RequestException the session state is not assigned (line 57); otherwise
the else-branch always assigns the session state (line 71), including the
branch that showed an error for a body that is neither a list nor a dict
(lines 67-69) and the dict branch that defaults a missing data key to []
(line 66).  Lines 73-74 then show the success message whenever the
session state is not None, with its current length. -/
def cargar_clicked (prev : Option (List RawRecord)) (resp : Except Unit ApiBody) :
    LoadOutcome :=
  match resp with
  | .error _ =>
    { raw_dataset := prev
      errorShown := true
      successShown := prev.map List.length }
  | .ok body =>
    let datasetErr : List RawRecord × Bool :=
      match body with
      | .jlist rows => (rows, false)
      | .jdict d => (d.getD [], false)
      | .jother => ([], true)
    { raw_dataset := some datasetErr.1
      errorShown := datasetErr.2
      successShown := some datasetErr.1.length }

/-- Concrete normalized row carrying only a local delivery date, used in
the boundary examples. -/
def rowOn (d : Int) : NormRow :=
  { carrier := .vNaN, incidence := false, start_date := none,
    delivery_date := some d, start_local := none, delivery_local := none,
    horas_entrega := none }

/-- Concrete two-row table with delivery dates 2024-06-07 and 2024-06-08,
used for the range-filter boundary. -/
def dfVentana : NormDF :=
  { hasIncidence := false, hasCarrier := false,
    rows := [rowOn (daysOfCivil 2024 6 7), rowOn (daysOfCivil 2024 6 8)] }

/-- Concrete UTC instant 2024-06-10T18:00:00Z, which is 2024-06-10 noon
in Monterrey. -/
def entregaT18 : RawValue := .vTime (utcMinutes 2024 6 10 18 0)

/-- Concrete UTC instant 2024-06-10T13:00:00Z, used as a start time. -/
def salidaT13 : RawValue := .vTime (utcMinutes 2024 6 10 13 0)

/-- Concrete record whose raw start and delivery timestamps are both
2024-06-10T05:30:00Z, just after UTC midnight.  Both date keys are
present, so the build subtracts two tz-aware columns and succeeds. -/
def recManana : RawRecord :=
  { start_date := some (.vTime (utcMinutes 2024 6 10 5 30)),
    delivery_date := some (.vTime (utcMinutes 2024 6 10 5 30)) }

/-- Concrete one-record dataset carrying a carrier and both raw
timestamps but no incidence key anywhere, so the build succeeds and the
incidence column does not exist. -/
def recSinIncidence : RawRecord :=
  { carrier := some (.vStr "FEDEX"),
    start_date := some salidaT13,
    delivery_date := some entregaT18 }

/-- Concrete raw dataset with carriers "fedex", "FedEx" and one record
without a carrier key; every record carries both date keys (so the build
succeeds) and is delivered locally on 2024-06-10. -/
def rawCarriers : List RawRecord :=
  [ { carrier := some (.vStr "fedex"), incidence := some (.vBool false),
      start_date := some salidaT13, delivery_date := some entregaT18 },
    { carrier := some (.vStr "FedEx"), incidence := some (.vBool true),
      start_date := some salidaT13, delivery_date := some entregaT18 },
    { incidence := some (.vBool false),
      start_date := some salidaT13, delivery_date := some entregaT18 } ]

/-- The table built from rawCarriers. -/
def dfCarriers : NormDF := builtDF (build_df_all rawCarriers)

/-- Selected-date subset of dfCarriers on 2024-06-10: all three rows. -/
def subCarriers : List NormRow := df_fecha dfCarriers (daysOfCivil 2024 6 10)

/-- Output-equivalent record, as the pipeline would have produced it:
local calendar dates 2024-06-09 in both date fields and a boolean
incidence. -/
def recEquivalente : RawRecord :=
  { incidence := some (.vBool true),
    start_date := some (.vDate (daysOfCivil 2024 6 9)),
    delivery_date := some (.vDate (daysOfCivil 2024 6 9)) }

/-- Claim C1: a raw timestamp that parses as a UTC instant is normalized,
for both start_date and delivery_date, by converting the instant to
America/Monterrey first and dropping the time-of-day component only then;
in particular the raw UTC timestamp 2024-06-10T05:30:00Z is bucketed to
the local delivery date 2024-06-09, one day before the 2024-06-10 that
dropping the time of day before conversion would give.  The records
carry both date keys, so the build stays clear of the tz-subtraction
TypeError of line 129 and actually produces these rows. -/
theorem c1_convert_then_drop :
    (∀ (ts td : Int) (rec : RawRecord),
      rec.start_date = some (.vTime ts) →
      rec.delivery_date = some (.vTime td) →
      build_df_all [rec] ≠ .typeErrorTz ∧
      ((builtDF (build_df_all [rec])).rows.map (fun r => r.start_date))
        = [some (localDateOf ts)] ∧
      ((builtDF (build_df_all [rec])).rows.map (fun r => r.delivery_date))
        = [some (localDateOf td)]) ∧
    build_df_all [recManana] ≠ .typeErrorTz ∧
    ((builtDF (build_df_all [recManana])).rows.map (fun r => r.delivery_date))
      = [some (daysOfCivil 2024 6 9)] ∧
    daysOfCivil 2024 6 9 ≠ daysOfCivil 2024 6 10 ∧
    (utcMinutes 2024 6 10 5 30).fdiv 1440 = daysOfCivil 2024 6 10 := by
  refine ⟨?_, by decide, by decide, by decide, by decide⟩
  intro ts td rec h1 h2
  refine ⟨?_, ?_, ?_⟩ <;>
    simp [build_df_all, builtDF, h1, h2, parseUTC, localDateOf]

/-- Witness for C1: the general bucketing law applied to the concrete
record holding the raw UTC timestamp 2024-06-10T05:30:00Z in both date
fields. -/
theorem c1_witness :
    build_df_all [recManana] ≠ .typeErrorTz ∧
    ((builtDF (build_df_all [recManana])).rows.map (fun r => r.delivery_date))
      = [some (localDateOf (utcMinutes 2024 6 10 5 30))] :=
  ⟨(c1_convert_then_drop.1 (utcMinutes 2024 6 10 5 30)
      (utcMinutes 2024 6 10 5 30) recManana rfl rfl).1,
   (c1_convert_then_drop.1 (utcMinutes 2024 6 10 5 30)
      (utcMinutes 2024 6 10 5 30) recManana rfl rfl).2.2⟩

/-- Claim C2: the incidence coercion maps null, NaN, numeric zero, the
string "0" and False to false, passes True through, maps every value
coercing to a nonzero number to true, and maps every NaN-like value and
every value whose numeric coercion fails to false; it is a total Boolean
function. -/
theorem c2_to_bool_cases :
    to_bool .vNull = false ∧
    to_bool .vNaN = false ∧
    to_bool (.vNum 0) = false ∧
    to_bool (.vStr "0") = false ∧
    to_bool (.vBool false) = false ∧
    to_bool (.vBool true) = true ∧
    (∀ q : Rat, q ≠ 0 → to_bool (.vNum q) = true) ∧
    (∀ (s : String) (q : Rat), parsePyFloat s = some q → q ≠ 0 →
      to_bool (.vStr s) = true) ∧
    (∀ x : RawValue, isna x = true → to_bool x = false) ∧
    (∀ x : RawValue, (∀ b, x ≠ .vBool b) → pyFloat x = none →
      to_bool x = false) := by
  refine ⟨by decide, by decide, by decide, by decide, by decide, by decide,
    ?_, ?_, ?_, ?_⟩
  · intro q hq
    simp [to_bool, isna, pyFloat, hq]
  · intro s q hp hq
    simp [to_bool, isna, pyFloat, hp, hq]
  · intro x hx
    simp [to_bool, hx]
  · intro x hb hf
    cases x with
    | vNull => rfl
    | vNaN => rfl
    | vBool b => exact absurd rfl (hb b)
    | vNum q => simp [pyFloat] at hf
    | vStr s =>
      simp only [pyFloat] at hf
      simp [to_bool, isna, pyFloat, hf]
    | vDate d => simp [to_bool, isna, pyFloat]
    | vTime t => simp [to_bool, isna, pyFloat]

/-- Witness for C2: 3 coerces to a nonzero number, "xyz" fails numeric
coercion, and so does a date object. -/
theorem c2_witness :
    to_bool (.vNum 3) = true ∧ to_bool (.vStr "xyz") = false ∧
    to_bool (.vDate 19884) = false :=
  ⟨c2_to_bool_cases.2.2.2.2.2.2.1 3 (by norm_num),
   c2_to_bool_cases.2.2.2.2.2.2.2.2.2 (.vStr "xyz") (by decide) (by decide),
   c2_to_bool_cases.2.2.2.2.2.2.2.2.2 (.vDate 19884) (by decide) (by decide)⟩

/-- Claim C4 is false as stated: a decoded body that is neither a JSON
array nor a dict does surface an error, but line 71 of main.py still
replaces the session dataset with the empty list.  Concretely, with one
cached record and such a body, the cached dataset changes to the empty
list instead of staying untouched. -/
theorem c4_counterexample :
    (cargar_clicked (some [{}]) (.ok .jother)).errorShown = true ∧
    (cargar_clicked (some [{}]) (.ok .jother)).raw_dataset = some [] ∧
    (cargar_clicked (some [{}]) (.ok .jother)).raw_dataset ≠ some [{}] := by
  refine ⟨rfl, rfl, ?_⟩
  decide

/-- Claim C4 amended: on a network/HTTP error the cached dataset is left
untouched and the failure is surfaced; but when the decoded body is
neither a JSON array nor an object, the failure is surfaced and the
cached dataset is replaced by the empty list. -/
theorem c4_amended_error_handling :
    (∀ prev : Option (List RawRecord),
      (cargar_clicked prev (.error ())).raw_dataset = prev ∧
      (cargar_clicked prev (.error ())).errorShown = true) ∧
    (∀ prev : Option (List RawRecord),
      (cargar_clicked prev (.ok .jother)).raw_dataset = some [] ∧
      (cargar_clicked prev (.ok .jother)).errorShown = true) :=
  ⟨fun _ => ⟨rfl, rfl⟩, fun _ => ⟨rfl, rfl⟩⟩

/-- Claim C5 names a genuine code bug: main.py guards the incidence
column everywhere except in the per-carrier aggregation, whose named
aggregation references the incidence column unconditionally, so pandas
raises KeyError there when the column is absent.  On a one-record
dataset carrying a carrier and both parseable timestamps but no
incidence field, the build succeeds (both internal date columns are
tz-aware, so line 129 does not raise) and the selected-date aggregation
then hits the KeyError instead of treating the column as all-null. -/
theorem c5_groupby_keyerror :
    build_df_all [recSinIncidence] ≠ .typeErrorTz ∧
    group_fecha (builtDF (build_df_all [recSinIncidence]))
      (daysOfCivil 2024 6 10) = .keyErrorIncidence := by
  exact ⟨by decide, by decide⟩

/-- Claim C10: a response body decoding to a JSON object without a data
key silently replaces the session dataset by the empty list: no error is
shown and the success message reports 0 records. -/
theorem c10_dict_sin_data :
    ∀ prev : Option (List RawRecord),
      cargar_clicked prev (.ok (.jdict none))
        = { raw_dataset := some [], errorShown := false,
            successShown := some 0 } :=
  fun _ => rfl

/-- Claim C3: for any window size of at least one day, the range filter
selects exactly the rows of the table whose local delivery date lies in
the closed interval from selected - (nDias - 1) to selected; in
particular a row with a null local delivery date is never selected. -/
theorem c3_range_filter :
    ∀ (df : NormDF) (selected nDias : Int), 1 ≤ nDias →
      ∀ r : NormRow,
        r ∈ df_rango df selected nDias ↔
          r ∈ df.rows ∧ ∃ d, r.delivery_date = some d ∧
            selected - (nDias - 1) ≤ d ∧ d ≤ selected := by
  intro df selected nDias _ r
  rw [df_rango, List.mem_filter]
  cases h : r.delivery_date with
  | none => simp [mask_rango, h]
  | some d => simp [mask_rango, h, and_assoc]

/-- Witness for C3: with selected date 2024-06-10 and a 3-day window the
row dated 2024-06-08 is selected and the row dated 2024-06-07 is not. -/
theorem c3_witness :
    rowOn (daysOfCivil 2024 6 8) ∈ df_rango dfVentana (daysOfCivil 2024 6 10) 3 ∧
    rowOn (daysOfCivil 2024 6 7) ∉ df_rango dfVentana (daysOfCivil 2024 6 10) 3 := by
  constructor
  · exact (c3_range_filter dfVentana _ 3 (by norm_num) _).mpr
      ⟨by decide, daysOfCivil 2024 6 8, rfl, by decide, by decide⟩
  · intro hmem
    obtain ⟨-, d, hd, h1, -⟩ :=
      (c3_range_filter dfVentana _ 3 (by norm_num) _).mp hmem
    simp only [rowOn, Option.some.injEq] at hd
    subst hd
    exact absurd h1 (by decide)

/-- Re-parsing a Python date object of epoch day d through
to_datetime(utc=True) followed by conversion to UTC-6 and date truncation
lands on the previous day. -/
theorem reparse_date_shift (d : Int) :
    dropTime (toLocalInstant (d * 1440)) = d - 1 := by
  rw [dropTime, Int.fdiv_eq_ediv _ (by norm_num)]
  simp only [toLocalInstant, tzOffsetMinutes]
  omega

/-- Claim C6 is false as stated: re-normalizing an output-equivalent
record, whose dates are already the local calendar dates 2024-06-09 and
whose incidence is already boolean, changes the dates: the delivery date
becomes 2024-06-08. -/
theorem c6_counterexample :
    build_df_all [recEquivalente] ≠ .typeErrorTz ∧
    ((builtDF (build_df_all [recEquivalente])).rows.map
        (fun r => r.delivery_date)) = [some (daysOfCivil 2024 6 8)] ∧
    ((builtDF (build_df_all [recEquivalente])).rows.map
        (fun r => r.delivery_date)) ≠ [some (daysOfCivil 2024 6 9)] := by
  refine ⟨by decide, by decide, by decide⟩

/-- Claim C6 amended: re-normalizing an output-equivalent record is not a
no-op.  The boolean incidence passes through unchanged, but each non-null
local calendar date is re-parsed as midnight UTC and therefore shifts to
the previous local day, and the lead-time hours are recomputed from the
re-parsed midnights as 24 times the date difference. -/
theorem c6_renormalize_shifts :
    ∀ (b : Bool) (c : String) (ds dd : Int),
      build_df_all
          [{ carrier := some (.vStr c), incidence := some (.vBool b),
             start_date := some (.vDate ds),
             delivery_date := some (.vDate dd) }] ≠ .typeErrorTz ∧
      ((builtDF (build_df_all
          [{ carrier := some (.vStr c), incidence := some (.vBool b),
             start_date := some (.vDate ds),
             delivery_date := some (.vDate dd) }])).rows.map
        (fun r => (r.incidence, r.start_date, r.delivery_date, r.horas_entrega)))
        = [(b, some (ds - 1), some (dd - 1),
            some (((dd - ds : Int) : Rat) * 24))] := by
  intro b c ds dd
  constructor
  · simp [build_df_all]
  · simp only [build_df_all, List.any_cons, List.any_nil, Option.isSome_some,
      Bool.or_false, Bool.or_true, bne_self_eq_false, Bool.false_eq_true,
      if_false, builtDF, List.map_cons, List.map_nil, Option.getD_some,
      parseUTC, Option.map_some', reparse_date_shift]
    simp only [ite_true]
    simp only [Option.map_some', reparse_date_shift]
    simp only [to_bool, isna, Bool.false_eq_true, if_false, List.cons.injEq,
      Prod.mk.injEq, Option.some.injEq, and_true, true_and]
    simp only [toLocalInstant, tzOffsetMinutes]
    push_cast
    ring

/-- Claim C7: an empty subset summarizes to count 0, incidence count 0,
percentage 0.0 rendered "0.00%", and the N/D sentinel for the average
lead time; the sentinel also appears whenever the subset has no non-null
lead-time values. -/
theorem c7_resumen_vacio :
    (∀ hasInc : Bool,
      resumen hasInc []
        = { total_entregado := 0, tiempo_promedio_str := "N/D",
            total_incidencias := 0, porcentaje_incidencias := 0,
            porcentaje_incidencias_str := "0.00%" }) ∧
    (∀ (hasInc : Bool) (sub : List NormRow),
      sub.filterMap (fun r => r.horas_entrega) = [] →
      (resumen hasInc sub).tiempo_promedio_str = "N/D") := by
  constructor
  · decide
  · intro hasInc sub h
    simp [resumen, h]

/-- Witness for C7: a one-row subset whose lead time is null reports the
N/D sentinel. -/
theorem c7_witness :
    (resumen true [rowOn (daysOfCivil 2024 6 7)]).tiempo_promedio_str = "N/D" :=
  c7_resumen_vacio.2 true [rowOn (daysOfCivil 2024 6 7)] rfl

/-- Claim C8: the CSV export is sorted with every pair of rows in the
export order (dated rows by local delivery date descending, every
null-dated row after every dated row), the null-dated rows among
themselves keep the dataset's insertion order, and the export is a
permutation of the dataset. -/
theorem c8_export_order :
    ∀ rows : List NormRow,
      (df_export_rows rows).Pairwise exportOrder ∧
      (df_export_rows rows).filter (fun r => r.delivery_date.isNone)
        = rows.filter (fun r => r.delivery_date.isNone) ∧
      (df_export_rows rows).Perm rows := by
  intro rows
  have hmemSorted : ∀ a ∈ (rows.filter
      (fun r => r.delivery_date.isSome)).insertionSort exportRel,
      a.delivery_date.isSome = true := by
    intro a ha
    exact (List.mem_filter.mp ((List.mem_insertionSort _).mp ha)).2
  have hmemNulls : ∀ b ∈ rows.filter (fun r => r.delivery_date.isNone),
      b.delivery_date = none := by
    intro b hb
    exact Option.isNone_iff_eq_none.mp (List.mem_filter.mp hb).2
  have hOrderNone : ∀ (a b : NormRow), b.delivery_date = none →
      exportOrder a b := by
    intro a b hb
    unfold exportOrder
    rw [hb]
    cases a.delivery_date <;> trivial
  refine ⟨?_, ?_, ?_⟩
  · rw [df_export_rows, List.pairwise_append]
    refine ⟨?_, ?_, ?_⟩
    · haveI : IsTotal NormRow exportRel := ⟨fun a b => Int.le_total _ _⟩
      haveI : IsTrans NormRow exportRel :=
        ⟨fun a b c hab hbc => le_trans hbc hab⟩
      have hs := List.sorted_insertionSort exportRel
        (rows.filter (fun r => r.delivery_date.isSome))
      refine List.Pairwise.imp_of_mem ?_ hs
      intro a b ha hb hab
      obtain ⟨x, hx⟩ := Option.isSome_iff_exists.mp (hmemSorted a ha)
      obtain ⟨y, hy⟩ := Option.isSome_iff_exists.mp (hmemSorted b hb)
      unfold exportRel at hab
      rw [hx, hy] at hab
      unfold exportOrder
      rw [hx, hy]
      simpa using hab
    · have hall : ∀ l : List NormRow, (∀ x ∈ l, x.delivery_date = none) →
          l.Pairwise exportOrder := by
        intro l
        induction l with
        | nil => intro _; exact List.Pairwise.nil
        | cons a t ih =>
          intro h
          exact List.Pairwise.cons
            (fun b hb => hOrderNone a b (h b (List.mem_cons_of_mem _ hb)))
            (ih (fun x hx => h x (List.mem_cons_of_mem _ hx)))
      exact hall _ hmemNulls
    · intro a ha b hb
      exact hOrderNone a b (hmemNulls b hb)
  · rw [df_export_rows, List.filter_append]
    have h1 : ((rows.filter
        (fun r => r.delivery_date.isSome)).insertionSort exportRel).filter
        (fun r => r.delivery_date.isNone) = [] := by
      rw [List.filter_eq_nil_iff]
      intro a ha hn
      have hs := hmemSorted a ha
      rw [Option.isNone_iff_eq_none.mp hn] at hs
      simp at hs
    have h2 : (rows.filter (fun r => r.delivery_date.isNone)).filter
        (fun r => r.delivery_date.isNone)
        = rows.filter (fun r => r.delivery_date.isNone) :=
      List.filter_eq_self.mpr (fun a ha => (List.mem_filter.mp ha).2)
    rw [h1, h2, List.nil_append]
  · rw [df_export_rows]
    have hfil : rows.filter (fun r => r.delivery_date.isNone)
        = rows.filter (fun r => !r.delivery_date.isSome) :=
      List.filter_congr (fun a _ => by cases a.delivery_date <;> rfl)
    have hp := (List.perm_insertionSort exportRel (rows.filter
        (fun r => r.delivery_date.isSome))).append_right
      (rows.filter (fun r => r.delivery_date.isNone))
    refine hp.trans ?_
    rw [hfil]
    exact List.filter_append_perm _ rows

/-- Claim C9: whenever the per-carrier aggregation produces groups, every
subset row is counted under the key str(carrier).upper() together with
its whole group; "fedex" and "FedEx" both key to "FEDEX", a missing
carrier cell keys to "NAN", and on the concrete dataset with carriers
"fedex", "FedEx" and a record without a carrier key — every record
carrying both date keys, so the build succeeds — the selected-date
aggregation produces exactly the group "FEDEX" with 2 rows (1 incidence)
and the group "NAN" with 1 row. -/
theorem c9_carrier_grouping :
    (∀ (df : NormDF) (sub : List NormRow),
      (sub.isEmpty || !df.hasCarrier) = false → df.hasIncidence = true →
      ∀ r ∈ sub,
        (carrier_upper r.carrier,
         sub.countP (fun x => carrier_upper x.carrier == carrier_upper r.carrier),
         (sub.filter (fun x => carrier_upper x.carrier
            == carrier_upper r.carrier)).countP (fun x => x.incidence))
          ∈ groupResumen (group_por_carrier df sub)) ∧
    carrier_upper (.vStr "fedex") = "FEDEX" ∧
    carrier_upper (.vStr "FedEx") = "FEDEX" ∧
    carrier_upper .vNaN = "NAN" ∧
    build_df_all rawCarriers ≠ .typeErrorTz ∧
    groupResumen (group_fecha dfCarriers (daysOfCivil 2024 6 10))
      = [("FEDEX", 2, 1), ("NAN", 1, 0)] := by
  refine ⟨?_, by decide, by decide, by decide, by decide, by decide⟩
  intro df sub hguard hinc r hr
  rw [group_por_carrier]
  rw [hguard]
  rw [hinc]
  simp only [Bool.false_eq_true, if_false, Bool.not_true, groupResumen,
    List.map_map]
  refine List.mem_map.mpr ⟨carrier_upper r.carrier, ?_, ?_⟩
  · rw [groupKeys, List.mem_dedup, List.mem_insertionSort]
    exact List.mem_map.mpr ⟨r, hr, rfl⟩
  · simp [List.countP_eq_length_filter]

/-- Witness for C9: on the concrete carrier dataset, the first row of the
selected-date subset (carrier "fedex") is counted with its group in the
aggregation output. -/
theorem c9_witness :
    (carrier_upper ((subCarriers.get ⟨0, by decide⟩).carrier),
     subCarriers.countP (fun x => carrier_upper x.carrier
        == carrier_upper ((subCarriers.get ⟨0, by decide⟩).carrier)),
     (subCarriers.filter (fun x => carrier_upper x.carrier
        == carrier_upper ((subCarriers.get ⟨0, by decide⟩).carrier))).countP
       (fun x => x.incidence))
      ∈ groupResumen (group_por_carrier dfCarriers subCarriers) :=
  c9_carrier_grouping.1 dfCarriers subCarriers (by decide) (by decide)
    (subCarriers.get ⟨0, by decide⟩) (List.get_mem _ _ _)

end ResumenPaqueterias
